import Mathlib

/-!
Shallow embedding of the crates.io publish pipeline
(`src/controllers/krate/publish.rs`) and the index upload admin command
(`src/admin/upload_index.rs`).

Conventions:
* Rust byte buffers (`Bytes`) are `List Nat`, each element a byte value.
* Fallible Rust functions returning `AppResult<T>` become `Except PubErr T`.
* Database mutations are explicit state passing on a `Db` record; the
  `conn.transaction` block becomes: run the body on the current `Db`, keep
  the new `Db` on success and restore the pre-transaction `Db` on failure.
* External crates (sha2, semver, url, the tarball processor) and repository
  code not included in the sample (models, rate limiter, storage) are
  modelled at their call boundary; each such definition carries a doc
  comment saying what it stands for.
-/

/-- Error type: `cargo_err` produces user-facing errors with a message,
`internal` produces server errors (`util::errors`). Rate limiting
produces its own variant (`rate_limiter::InsufficientTokens`). -/
inductive PubErr where
  | cargo (msg : String)
  | internal (msg : String)
  | rateLimited
deriving Repr, DecidableEq

/-- `Bytes::get_u32_le` on the first four bytes of the buffer:
little-endian 32-bit read. -/
def get_u32_le (bytes : List Nat) : Nat :=
  match bytes with
  | b0 :: b1 :: b2 :: b3 :: _ => b0 + 256 * (b1 + 256 * (b2 + 256 * b3))
  | _ => 0

/-- `split_body` (publish.rs): the publish request body is a 4-byte
little-endian length, the JSON metadata, a 4-byte little-endian length,
then the tarball. Truncated or over-declared lengths are rejected. -/
def split_body (bytes : List Nat) : Except PubErr (List Nat × List Nat) :=
  if bytes.length < 4 then
    .error (.cargo "invalid metadata length")
  else
    let json_len := get_u32_le bytes
    let rest := bytes.drop 4
    if json_len > rest.length then
      .error (.cargo ("invalid metadata length for remaining payload: " ++ toString json_len))
    else
      let json_bytes := rest.take json_len
      let rest := rest.drop json_len
      if rest.length < 4 then
        .error (.cargo "invalid tarball length")
      else
        let tarball_len := get_u32_le rest
        let rest2 := rest.drop 4
        if tarball_len > rest2.length then
          .error (.cargo ("invalid tarball length for remaining payload: " ++ toString tarball_len))
        else
          .ok (json_bytes, rest2.take tarball_len)

/-! ## Index upload admin command (`src/admin/upload_index.rs`) -/

/-- The commit-addressed index repository, at the boundary used by
`upload_index::run`: `head_oid`, `get_files_modified_since` (file names of
changed index files), and the working-tree index file per crate name after
`reset_head` (`none` when `path.exists()` is false at the new head). -/
structure IndexRepo where
  head_oid : String
  get_files_modified_since : Option String → List String
  index_file : String → Option String

/-- Observable outcome of one `upload_index::run`: the `storage.sync_index`
uploads performed (crate name, full contents), the `skipping file` warnings
printed, and the head commit printed at completion for use as the next
incremental checkpoint. -/
structure UploadRunResult where
  uploads : List (String × String)
  skipped : List String
  reported_checkpoint : Option String
deriving Repr, DecidableEq

/-- The per-file loop of `upload_index::run`: for each changed file name,
skip with a warning when the file no longer exists in the working tree,
otherwise read its full contents and upload them. -/
def uploadFiles (repo : IndexRepo) : List String → UploadRunResult → UploadRunResult
  | [], acc => acc
  | name :: rest, acc =>
    match repo.index_file name with
    | none => uploadFiles repo rest { acc with skipped := acc.skipped ++ [name] }
    | some contents => uploadFiles repo rest { acc with uploads := acc.uploads ++ [(name, contents)] }

/-! ## Data model for the publish pipeline -/

/-- A row of the `crates` table, restricted to the columns the publish
path reads or writes. -/
structure CrateRow where
  id : Nat
  name : String
  description : Option String
  homepage : Option String
  documentation : Option String
  readme : Option String
  repository : Option String
  max_upload_size : Option Nat
deriving Repr, DecidableEq

/-- A row of the `versions` table, restricted to the columns the publish
path writes. `created_at` is a timestamp (arbitrary integral unit). -/
structure VersionRow where
  id : Nat
  crate_id : Nat
  num : String
  created_at : Int
  license : Option String
  crate_size : Nat
  published_by : Nat
  checksum : String
deriving Repr, DecidableEq

/-- A row of the `dependencies` table, as built by `add_dependencies`. -/
structure DependencyRow where
  version_id : Nat
  crate_id : Nat
  req : String
  kind : Option Nat
  optional : Bool
  default_features : Bool
  features : List String
  target : Option String
  explicit_name : Option String
deriving Repr, DecidableEq

/-- A `crate_owners` entry: an individual user or a team. -/
inductive Owner where
  | user (id : Nat)
  | team (id : Nat)
deriving Repr, DecidableEq

/-- A `version_owner_actions` row: (version_id, user_id, api_token_id);
the action recorded by the publish path is always `VersionAction::Publish`. -/
structure VersionOwnerAction where
  version_id : Nat
  user_id : Nat
  api_token_id : Option Nat
deriving Repr, DecidableEq

/-- A `background_jobs` row, restricted to the two jobs the publish path
enqueues. -/
inductive BackgroundJob where
  | renderAndUploadReadme (version_id : Nat) (text : String) (readme_path : String)
      (base_url : Option String) (pkg_path_in_vcs : Option String)
  | syncToIndex (krate : String)
deriving Repr, DecidableEq

/-- `LimitedAction` (rate_limiter): distinct buckets for first publish of
a crate and publish of a new version of an existing crate. -/
inductive LimitedAction where
  | publishNew
  | publishUpdate
deriving Repr, DecidableEq

/-- The transactional database state touched by the publish path. The
rate-limit buckets live in the same database in the source, but the
`check_rate_limit` debit runs on the connection *before* the publish
transaction opens, so a later rollback does not refund it; we therefore
keep them in a separate field of `PubState` rather than in `Db`. -/
structure Db where
  crates : List CrateRow
  versions : List VersionRow
  crate_owners : List (Nat × Owner)
  team_members : List (Nat × Nat)
  dependencies : List DependencyRow
  version_owner_actions : List VersionOwnerAction
  crate_keywords : List (Nat × List String)
  crate_categories : List (Nat × List String)
  known_categories : List String
  reserved_crate_names : List String
  jobs : List BackgroundJob
  next_crate_id : Nat
  next_version_id : Nat
deriving Repr, DecidableEq

/-- Modelled from the spec: the token-bucket rate limiter state
(`rate_limiter`, not part of the sample): "keyed by (actor, action-kind);
holds available tokens"; continuous refill is not modelled because no
claim depends on it. -/
structure RateLimiter where
  tokens : List ((Nat × LimitedAction) × Nat)
deriving Repr, DecidableEq

/-- Full mutable state of a publish request: the transactional database,
the blob store (`Storage`, keyed by object path), and the rate-limit
buckets (persisted outside the publish transaction). -/
structure PubState where
  db : Db
  storage : List (String × List Nat)
  limiter : RateLimiter
deriving Repr, DecidableEq

/-- The authenticated user as seen by the publish path: id and the
outcome of `user.verified_email(conn)`. -/
structure User where
  id : Nat
  verified_email : Option String
deriving Repr, DecidableEq

/-- The manifest `package` section extracted by the external tarball
processor (`crates_io_tarball::process_tarball`), restricted to the
fields the publish path reads, plus the vcs path hint. -/
structure TarballPackage where
  description : Option String
  license : Option String
  license_file : Option String
  homepage : Option String
  documentation : Option String
  repository : Option String
  keywords : Option (List String)
  categories : Option (List String)
  rust_version : Option String
  links : Option String
  path_in_vcs : Option String
deriving Repr, DecidableEq

/-- One declared dependency from the JSON metadata
(`EncodableCrateDependency`); `version_req` is kept as its string form. -/
structure EncodableCrateDependency where
  name : String
  version_req : String
  registry : Option String
  kind : Option Nat
  optional : Bool
  default_features : Bool
  features : List String
  target : Option String
  explicit_name_in_toml : Option String
deriving Repr, DecidableEq

/-- The JSON metadata document of a publish request (`PublishMetadata`),
restricted to the fields the publish path reads. -/
structure PublishMetadata where
  name : String
  vers : String
  deps : List EncodableCrateDependency
  features : List (String × List String)
  readme : Option String
  readme_file : Option String
deriving Repr, DecidableEq

/-- `PublishWarnings` in the success response. -/
structure PublishWarnings where
  invalid_categories : List String
  invalid_badges : List String
  other : List String
deriving Repr, DecidableEq

/-- `GoodCrate` success response; the `EncodableCrate` view is reduced to
the crate name, the only part a claim mentions. -/
structure GoodCrate where
  krate_name : String
  warnings : PublishWarnings
deriving Repr, DecidableEq

/-- The request environment: configuration, the authenticated actor, and
the external collaborators at their call boundaries (tarball processor,
license-expression parser, URL parser, SHA-256, blob-store upload
outcome). `upload_crate_file_error = some e` means the blob-store upload
fails with error `e`; `none` means it succeeds. -/
structure Env where
  domain_name : String
  max_upload_size : Nat
  max_unpack_size : Nat
  new_version_rate_limit : Option Nat
  now : Int
  user : User
  api_token_id : Option Nat
  process_tarball : String → List Nat → Nat → Except PubErr TarballPackage
  parse_license_expr_ok : String → Bool
  url_parse_ok : String → Bool
  sha256_hex : List Nat → String
  upload_crate_file_error : Option String

/-! ## Repository code outside the sample, modelled from the spec -/

/-- Modelled from the spec: the SQL `canon_crate_name` canonicalization
(`sql::canon_crate_name`, not part of the sample): "unique
case-insensitive-canonicalized name ... prevent name-squatting via case
or punctuation variants"; lower-cases and identifies `-` with `_`,
character by character. -/
def canonChar (c : Char) : Char :=
  if c = '-' then '_' else c.toLower

/-- Modelled from the spec: the SQL `canon_crate_name` function applied
character-wise. -/
def canon_crate_name (name : String) : String :=
  String.mk (name.data.map canonChar)

/-- Modelled from the spec: `Crate::by_name` (models, not part of the
sample) resolves a crate by canonicalized name. -/
def Crate.by_name (db : Db) (name : String) : Option CrateRow :=
  db.crates.find? (fun c => canon_crate_name c.name = canon_crate_name name)

/-- `Crate::by_exact_name` (models, not part of the sample): per the
comment in `add_dependencies`, "Match only identical names to ensure the
index always references the original crate name". -/
def Crate.by_exact_name (db : Db) (name : String) : Option CrateRow :=
  db.crates.find? (fun c => c.name = name)

/-- The owners of a crate (`krate.owners(conn)`). -/
def crateOwners (db : Db) (crate_id : Nat) : List Owner :=
  (db.crate_owners.filter (fun e => e.1 = crate_id)).map (·.2)

/-- The ordered capability level `{None < Read < Publish}` (`Rights`). -/
inductive Rights where
  | none
  | read
  | publish
deriving Repr, DecidableEq

/-- Numeric rank giving the order `None < Read < Publish`. -/
def Rights.rank : Rights → Nat
  | .none => 0
  | .read => 1
  | .publish => 2

instance : LT Rights := ⟨fun a b => a.rank < b.rank⟩

instance (a b : Rights) : Decidable (a < b) :=
  inferInstanceAs (Decidable (a.rank < b.rank))

/-- Modelled from the spec: `user.rights(&app, &owners)` (models, not
part of the sample): "if the actor is a direct individual owner,
capability is Publish. If the actor is a member of any Team that owns the
Package, capability is Publish. Otherwise None." Team membership is read
from `team_members`; lookup failure is not modelled (no claim depends on
it). -/
def User.rights (db : Db) (user_id : Nat) (owners : List Owner) : Rights :=
  if owners.any (fun o => o = .user user_id) then
    .publish
  else if owners.any (fun o =>
      match o with
      | .team t => db.team_members.contains (t, user_id)
      | .user _ => false) then
    .publish
  else
    .none

/-- Modelled from the spec: `check_rate_limit` (rate_limiter, not part of
the sample) "either succeeds (and atomically debits one token) or fails
with a RateLimited condition". -/
def checkRateLimit (user_id : Nat) (action : LimitedAction) (rl : RateLimiter) :
    Except PubErr RateLimiter :=
  match rl.tokens.lookup (user_id, action) with
  | some (n + 1) =>
      .ok ⟨rl.tokens.map (fun e => if e.1 = (user_id, action) then (e.1, n) else e)⟩
  | _ => .error .rateLimited

/-- Modelled from the spec: `Maximums::new` (util, not part of the
sample): the per-crate upload-size override takes precedence over the
configured default, and the unpack ceiling is at least the upload
ceiling. -/
structure Maximums where
  max_upload_size : Nat
  max_unpack_size : Nat
deriving Repr, DecidableEq

/-- Modelled from the spec: constructor of `Maximums` (util). -/
def Maximums.new (krate_max_upload : Option Nat) (app_max_upload app_max_unpack : Nat) :
    Maximums :=
  let upload := krate_max_upload.getD app_max_upload
  { max_upload_size := upload, max_unpack_size := max app_max_unpack upload }

/-- Modelled from the spec: `Keyword::valid_name` (models, not part of
the sample): "a restricted keyword-name grammar" — nonempty, first
character ASCII alphanumeric, remaining characters ASCII alphanumeric or
`_`, `-`, `+`. -/
def Keyword.valid_name (name : String) : Bool :=
  match name.data with
  | [] => false
  | c :: rest =>
    c.isAlphanum && rest.all (fun ch => ch.isAlphanum || ch = '_' || ch = '-' || ch = '+')

/-- Modelled from the spec: `Keyword::update_crate` (models, not part of
the sample) replaces the crate's keyword associations with the validated
set. -/
def Keyword.update_crate (db : Db) (crate_id : Nat) (keywords : List String) : Db :=
  { db with crate_keywords :=
      (db.crate_keywords.filter (fun e => e.1 ≠ crate_id)) ++ [(crate_id, keywords)] }

/-- Modelled from the spec: `Category::update_crate` (models, not part of
the sample) replaces the crate's category associations with those present
in the registry taxonomy and returns the unknown ones so they can be
surfaced as `invalid_categories` warnings, not errors. -/
def Category.update_crate (db : Db) (crate_id : Nat) (categories : List String) :
    Db × List String :=
  let known := categories.filter (fun c => db.known_categories.contains c)
  let invalid := categories.filter (fun c => !db.known_categories.contains c)
  ({ db with crate_categories :=
      (db.crate_categories.filter (fun e => e.1 ≠ crate_id)) ++ [(crate_id, known)] },
   invalid)

/-- Modelled from the spec: `semver::VersionReq::parse(s) == Ok(STAR)`
(external semver crate): true exactly when the requirement is a bare
wildcard (`*`, or the equivalent `x`/`X` forms; the surrounding
whitespace the real parser also accepts is not modelled). -/
def versionReqIsStar (s : String) : Bool :=
  s = "*" || s = "x" || s = "X"

/-- The fields of `NewCrate` built by the publish handler (name plus the
mutable metadata columns; `max_upload_size` is always `None` there). -/
structure NewCrate where
  name : String
  description : Option String
  homepage : Option String
  documentation : Option String
  readme : Option String
  repository : Option String
deriving Repr, DecidableEq

/-- Modelled from the spec: `NewCrate::create` (models, not part of the
sample): a unique-constrained insert on the canonicalized name; on
success the publishing user is recorded as the initial individual owner
("first publish creates ownership for the publisher") and the new row is
returned; on a name conflict it returns `none` (`.optional()`). -/
def NewCrate.create (db : Db) (persist : NewCrate) (user_id : Nat) :
    Option (Db × CrateRow) :=
  match Crate.by_name db persist.name with
  | some _ => none
  | none =>
    let row : CrateRow :=
      { id := db.next_crate_id, name := persist.name,
        description := persist.description, homepage := persist.homepage,
        documentation := persist.documentation, readme := persist.readme,
        repository := persist.repository, max_upload_size := none }
    some ({ db with
              crates := db.crates ++ [row],
              crate_owners := db.crate_owners ++ [(row.id, .user user_id)],
              next_crate_id := db.next_crate_id + 1 }, row)

/-- Modelled from the spec: `NewCrate::update` (models, not part of the
sample): the fallback path of the race-safe create-or-update — update the
existing row's mutable metadata fields (not its name) and return the
row. -/
def NewCrate.update (db : Db) (persist : NewCrate) : Except PubErr (Db × CrateRow) :=
  match Crate.by_name db persist.name with
  | none => .error (.internal "crate not found for update")
  | some old =>
    let row : CrateRow :=
      { old with description := persist.description, homepage := persist.homepage,
                 documentation := persist.documentation, readme := persist.readme,
                 repository := persist.repository }
    .ok ({ db with crates := db.crates.map (fun c => if c.id = old.id then row else c) }, row)

/-- The race-safe create-or-update of the `crates` row: "To avoid race
conditions, we try to insert first so we know whether to add an owner"
(`persist.create(conn, user.id).optional()?` with `persist.update(conn)?`
as the fallback). -/
def createOrUpdateCrate (db : Db) (persist : NewCrate) (user_id : Nat) :
    Except PubErr (Db × CrateRow) :=
  match NewCrate.create db persist user_id with
  | some result => .ok result
  | none => NewCrate.update db persist

/-- Modelled from the spec: `NewVersion::new(...).save(...)` (models, not
part of the sample): "Publishing the same (name, version) pair twice
fails (uniqueness)"; otherwise the version row is inserted with the
current timestamp and returned. -/
def saveNewVersion (db : Db) (crate_id : Nat) (num : String) (license : Option String)
    (crate_size : Nat) (user_id : Nat) (checksum : String) (now : Int) :
    Except PubErr (Db × VersionRow) :=
  if db.versions.any (fun v => v.crate_id = crate_id && v.num = num) then
    .error (.cargo ("crate version `" ++ num ++ "` is already uploaded"))
  else
    let row : VersionRow :=
      { id := db.next_version_id, crate_id := crate_id, num := num,
        created_at := now, license := license, crate_size := crate_size,
        published_by := user_id, checksum := checksum }
    .ok ({ db with
             versions := db.versions ++ [row],
             next_version_id := db.next_version_id + 1 }, row)

/-- `insert_version_owner_action` (models, not part of the sample):
records (version, user, token, Publish) in `version_owner_actions`. -/
def insert_version_owner_action (db : Db) (version_id user_id : Nat)
    (api_token_id : Option Nat) : Db :=
  { db with version_owner_actions :=
      db.version_owner_actions ++ [⟨version_id, user_id, api_token_id⟩] }

/-- `Job::enqueue_sync_to_index` (background_jobs, not part of the
sample): enqueues the index-sync job for the crate in the same
transaction. -/
def enqueue_sync_to_index (db : Db) (krate : String) : Db :=
  { db with jobs := db.jobs ++ [.syncToIndex krate] }

/-- `upload_index::run`: compute the files changed since the checkpoint,
ask for confirmation (modelled as the `confirm` input; declining returns
without uploading or reporting), upload each still-existing changed file in
full, then report the head commit as the next incremental checkpoint. -/
def uploadIndexRun (repo : IndexRepo) (incremental_commit : Option String)
    (confirm : Bool) : UploadRunResult :=
  let files := repo.get_files_modified_since incremental_commit
  if !confirm then
    { uploads := [], skipped := [], reported_checkpoint := none }
  else
    let result := uploadFiles repo files { uploads := [], skipped := [], reported_checkpoint := none }
    { result with reported_checkpoint := some repo.head_oid }

/-! ## The publish handler (`src/controllers/krate/publish.rs`) -/

/-- `MISSING_RIGHTS_ERROR_MESSAGE` (publish.rs). -/
def MISSING_RIGHTS_ERROR_MESSAGE : String :=
  "this crate exists but you don't seem to be an owner. If you believe this is a mistake, perhaps you need to accept an invitation to be an owner before publishing."

/-- `LICENSE_ERROR` (publish.rs). -/
def LICENSE_ERROR : String :=
  "unknown or invalid license expression; see http://opensource.org/licenses for options, and http://spdx.org/licenses/ for their identifiers"

/-- The local `empty` helper of the publish handler:
`s.map_or(true, String::is_empty)`. -/
def emptyField (s : Option String) : Bool :=
  match s with
  | none => true
  | some t => t = ""

/-- The `missing` vector built by the publish handler: `description` is
checked first, then the license pair (`license` counts as missing only
when both `license` and `license_file` are empty). -/
def missingFields (description license license_file : Option String) : List String :=
  (if emptyField description then ["description"] else []) ++
    (if emptyField license && emptyField license_file then ["license"] else [])

/-- `missing_metadata_error_message` (publish.rs): one combined message
listing all missing field names, comma-separated. -/
def missing_metadata_error_message (missing : List String) : String :=
  "missing or empty metadata fields: " ++ String.intercalate ", " missing ++
    ". Please see https://doc.rust-lang.org/cargo/reference/manifest.html for how to upload metadata"

/-- `validate_url` (publish.rs): a present URL must begin with `http://`
or `https://` (checked manually, since `Url::parse` may normalize
relative URLs) and must parse as a well-formed URL (the external `url`
crate, modelled by the `url_parse_ok` oracle). -/
def validate_url (env : Env) (url : Option String) (field : String) : Except PubErr Unit :=
  match url with
  | none => .ok ()
  | some u =>
    if !u.startsWith "http://" && !u.startsWith "https://" then
      .error (.cargo ("URL for field `" ++ field ++ "` must begin with http:// or https:// (url: " ++ u ++ ")"))
    else if !env.url_parse_ok u then
      .error (.cargo ("`" ++ field ++ "` is not a valid url: `" ++ u ++ "`"))
    else
      .ok ()

/-- The per-keyword loop of the publish handler: a keyword longer than 20
bytes is rejected first, then one failing `Keyword::valid_name`. -/
def checkKeywords : List String → Except PubErr Unit
  | [] => .ok ()
  | keyword :: rest =>
    if keyword.utf8ByteSize > 20 then
      .error (.cargo ("\"" ++ keyword ++ "\" is an invalid keyword (keywords must have less than 20 characters)"))
    else if !Keyword.valid_name keyword then
      .error (.cargo ("\"" ++ keyword ++ "\" is an invalid keyword"))
    else
      checkKeywords rest

/-- The license handling of the publish handler: a present license
expression must parse (`parse_license_expr`, modelled by the
`parse_license_expr_ok` oracle); with no license but a license file, the
sentinel `"non-standard"` is substituted. -/
def resolveLicense (env : Env) (license license_file : Option String) :
    Except PubErr (Option String) :=
  match license with
  | some l =>
    if env.parse_license_expr_ok l then .ok (some l) else .error (.cargo LICENSE_ERROR)
  | none =>
    if license_file.isSome then .ok (some "non-standard") else .ok none

/-- The metadata validation sequence of the publish handler, in source
order: missing-field check, license resolution, the three URL checks,
keyword count, per-keyword checks, category count. Returns the resolved
license. -/
def metadataChecks (env : Env) (package : TarballPackage) : Except PubErr (Option String) := do
  let missing := missingFields package.description package.license package.license_file
  if missing ≠ [] then
    throw (.cargo (missing_metadata_error_message missing))
  let license ← resolveLicense env package.license package.license_file
  validate_url env package.homepage "homepage"
  validate_url env package.documentation "documentation"
  validate_url env package.repository "repository"
  let keywords := package.keywords.getD []
  if keywords.length > 5 then
    throw (.cargo "expected at most 5 keywords per crate")
  checkKeywords keywords
  let categories := package.categories.getD []
  if categories.length > 5 then
    throw (.cargo "expected at most 5 categories per crate")
  pure license

/-- `is_reserved_name` (publish.rs): canonicalized match against the
`reserved_crate_names` table. -/
def is_reserved_name (db : Db) (name : String) : Bool :=
  db.reserved_crate_names.any (fun r => canon_crate_name r = canon_crate_name name)

/-- `count_versions_published_today` (publish.rs): the number of versions
of the crate created within the preceding rolling 24-hour window
(`created_at > now - 24.hours()`; timestamps here are in seconds). -/
def count_versions_published_today (db : Db) (krate_id : Nat) (now : Int) : Nat :=
  (db.versions.filter (fun v =>
    decide (v.crate_id = krate_id) && decide (v.created_at > now - 86400))).length

/-- The daily version-count cap of the publish handler: when
`new_version_rate_limit` is configured, reject once the count for this
crate has reached it. -/
def dailyVersionCheck (env : Env) (db : Db) (krate_id : Nat) : Except PubErr Unit :=
  match env.new_version_rate_limit with
  | none => .ok ()
  | some daily_version_limit =>
    if count_versions_published_today db krate_id env.now ≥ daily_version_limit then
      .error (.cargo "You have published too many versions of this crate in the last 24 hours")
    else
      .ok ()

/-- The per-dependency validation closure of `add_dependencies`, in
source order: non-empty alternate registry rejected, referenced crate
resolved by exact (non-canonicalized) name, wildcard requirement
rejected; a valid dependency yields its `dependencies` row. -/
def validateDep (db : Db) (target_version_id : Nat) (dep : EncodableCrateDependency) :
    Except PubErr DependencyRow :=
  if (dep.registry.getD "") ≠ "" then
    .error (.cargo ("Dependency `" ++ dep.name ++ "` is hosted on another registry. Cross-registry dependencies are not permitted on crates.io."))
  else
    match Crate.by_exact_name db dep.name with
    | none => .error (.cargo ("no known crate named `" ++ dep.name ++ "`"))
    | some krate =>
      if versionReqIsStar dep.version_req then
        .error (.cargo ("wildcard (`*`) dependency constraints are not allowed on crates.io. Crate with this problem: `" ++ dep.name ++ "` See https://doc.rust-lang.org/cargo/faq.html#can-libraries-use--as-a-version-for-their-dependencies for more information"))
      else
        .ok { version_id := target_version_id, crate_id := krate.id, req := dep.version_req,
              kind := dep.kind, optional := dep.optional,
              default_features := dep.default_features, features := dep.features,
              target := dep.target, explicit_name := dep.explicit_name_in_toml }

/-- The `collect::<Result<Vec<_>, _>>` step of `add_dependencies`: every
dependency is validated, in order, and the first failure aborts with no
row produced. -/
def collectNewDependencies (db : Db) (target_version_id : Nat) :
    List EncodableCrateDependency → Except PubErr (List DependencyRow)
  | [] => .ok []
  | dep :: rest =>
    match validateDep db target_version_id dep with
    | .error e => .error e
    | .ok row =>
      match collectNewDependencies db target_version_id rest with
      | .error e => .error e
      | .ok rows => .ok (row :: rows)

/-- `add_dependencies` (publish.rs): validate every declared dependency
edge, then insert them as a single batch; on a validation failure the
insert never runs, so no row is added. -/
def add_dependencies (db : Db) (deps : List EncodableCrateDependency)
    (target_version_id : Nat) : Except PubErr Db :=
  match collectNewDependencies db target_version_id deps with
  | .error e => .error e
  | .ok new_dependencies =>
    .ok { db with dependencies := db.dependencies ++ new_dependencies }

/-- The verified-email error of the publish handler. -/
def verified_email_error (domain_name : String) : String :=
  "A verified email address is required to publish crates to crates.io. Visit https://" ++
    domain_name ++ "/settings/profile to set and verify your email address."

/-- The rate-limit action kind chosen by the publish handler: a different
bucket for a new crate than for an existing one. -/
def rateLimitActionFor (existing_crate : Option CrateRow) : LimitedAction :=
  match existing_crate with
  | some _ => LimitedAction.publishUpdate
  | none => LimitedAction.publishNew

/-- The `Maximums` used by the publish handler: the per-crate override
from the pre-transaction crate lookup, then the configured defaults. -/
def publishMaximums (env : Env) (db : Db) (name : String) : Maximums :=
  Maximums.new ((Crate.by_name db name).bind (·.max_upload_size))
    env.max_upload_size env.max_unpack_size

/-- The `NewCrate` value (`persist`) built by the publish handler from
the metadata and manifest fields. -/
def newCrateOf (meta : PublishMetadata) (pkg : TarballPackage) : NewCrate :=
  { name := meta.name, description := pkg.description, homepage := pkg.homepage,
    documentation := pkg.documentation, readme := meta.readme, repository := pkg.repository }

/-- Everything the pre-transaction part of `publish` hands to the
transaction body. -/
structure PreOut where
  existing : Option CrateRow
  email : String
  pkg : TarballPackage
  license : Option String
deriving Repr, DecidableEq

/-- The pre-transaction part of `publish`, in source order: resolve the
crate by canonicalized name (for the rate-limit action kind and the
per-crate size override), require a verified email address, debit the
rate limiter, enforce the upload size ceiling, run the external tarball
processor, and validate the manifest metadata. Only the rate-limiter
debit mutates state, and it is not undone by later failures. -/
def preChecks (env : Env) (meta : PublishMetadata) (tarball_bytes : List Nat)
    (st : PubState) : Except PubErr PreOut × PubState :=
  let existing_crate := Crate.by_name st.db meta.name
  match env.user.verified_email with
  | none => (.error (.cargo (verified_email_error env.domain_name)), st)
  | some verified_email_address =>
    match checkRateLimit env.user.id (rateLimitActionFor existing_crate) st.limiter with
    | .error e => (.error e, st)
    | .ok limiter1 =>
      let st1 := { st with limiter := limiter1 }
      let content_length := tarball_bytes.length
      let maximums := publishMaximums env st.db meta.name
      if content_length > maximums.max_upload_size then
        (.error (.cargo ("max upload size is: " ++ toString maximums.max_upload_size)), st1)
      else
        let pkg_name := meta.name ++ "-" ++ meta.vers
        match env.process_tarball pkg_name tarball_bytes maximums.max_unpack_size with
        | .error e => (.error e, st1)
        | .ok package =>
          match metadataChecks env package with
          | .error e => (.error e, st1)
          | .ok license =>
            (.ok { existing := existing_crate, email := verified_email_address,
                   pkg := package, license := license }, st1)

/-- What the transaction body returns to the committing wrapper. -/
structure TxOut where
  krate : CrateRow
  version : VersionRow
  invalid_categories : List String
deriving Repr, DecidableEq

/-- The `conn.transaction` body of `publish` up to (not including) the
blob upload, in source order: reserved-name check, race-safe
create-or-update of the crate row, rights recomputation against the
resolved row, case-drift check, daily version cap, checksum, version
insert, owner-action record, dependency edges, keyword and category
associations, and the optional readme-render job. -/
def txBody (env : Env) (meta : PublishMetadata) (tarball_bytes : List Nat)
    (pre : PreOut) (db0 : Db) : Except PubErr (Db × TxOut) := do
  let persist : NewCrate := newCrateOf meta pre.pkg
  if is_reserved_name db0 meta.name then
    throw (.cargo "cannot upload a crate with a reserved name")
  let (db1, krate) ← createOrUpdateCrate db0 persist env.user.id
  let owners := crateOwners db1 krate.id
  if User.rights db1 env.user.id owners < Rights.publish then
    throw (.cargo MISSING_RIGHTS_ERROR_MESSAGE)
  if krate.name ≠ meta.name then
    throw (.cargo ("crate was previously named `" ++ krate.name ++ "`"))
  dailyVersionCheck env db1 krate.id
  let hex_cksum := env.sha256_hex tarball_bytes
  let (db2, version) ← saveNewVersion db1 krate.id meta.vers pre.license
    tarball_bytes.length env.user.id hex_cksum env.now
  let db3 := insert_version_owner_action db2 version.id env.user.id env.api_token_id
  let db4 ← add_dependencies db3 meta.deps version.id
  let db5 := Keyword.update_crate db4 krate.id (pre.pkg.keywords.getD [])
  let catResult := Category.update_crate db5 krate.id (pre.pkg.categories.getD [])
  let db6 := catResult.1
  let db7 := match meta.readme with
    | some readme =>
      if readme ≠ "" then
        { db6 with jobs := db6.jobs ++
            [.renderAndUploadReadme version.id readme (meta.readme_file.getD "README.md")
              pre.pkg.repository pre.pkg.path_in_vcs] }
      else db6
    | none => db6
  pure (db7, { krate := krate, version := version, invalid_categories := catResult.2 })

/-- Modelled from the spec: the blob-store key of the raw archive,
"content-addressed by `{package}/{package}-{version}.archive`" (the
`Storage` component is not part of the sample). -/
def crate_file_key (name vers : String) : String :=
  name ++ "/" ++ name ++ "-" ++ vers ++ ".archive"

/-- `publish` (publish.rs), from the point where the JSON metadata and
tarball bytes have been split out of the request body. The transaction
wrapper: on a body failure the pre-transaction `Db` is kept (rollback).
In the source the blob upload runs *inside* the transaction block, after
the readme-job enqueue and before `enqueue_sync_to_index`; a failing
upload therefore also rolls the transaction back, while the rate-limiter
debit (performed on the connection before the transaction) persists. -/
def publish (env : Env) (meta : PublishMetadata) (tarball_bytes : List Nat)
    (st : PubState) : Except PubErr GoodCrate × PubState :=
  match preChecks env meta tarball_bytes st with
  | (.error e, st1) => (.error e, st1)
  | (.ok pre, st1) =>
    match txBody env meta tarball_bytes pre st1.db with
    | .error e => (.error e, st1)
    | .ok (dbTx, out) =>
      match env.upload_crate_file_error with
      | some e => (.error (.internal ("failed to upload crate: " ++ e)), st1)
      | none =>
        let storage1 := st1.storage ++ [(crate_file_key out.krate.name meta.vers, tarball_bytes)]
        let dbFinal := enqueue_sync_to_index dbTx out.krate.name
        (.ok { krate_name := out.krate.name,
               warnings := { invalid_categories := out.invalid_categories,
                             invalid_badges := [], other := [] } },
         { st1 with db := dbFinal, storage := storage1 })

/-! ## Concrete witness scenarios -/

/-- A concrete index repository for the C10 witness: two files changed
since checkpoint `c0`; `a` still exists with contents `A`, `b` is gone. -/
def repoW : IndexRepo :=
  { head_oid := "h2",
    get_files_modified_since := fun _ => ["a", "b"],
    index_file := fun n => if n = "a" then some "A" else none }

/-- An empty database, the baseline for the concrete witnesses. -/
def dbEmpty : Db :=
  { crates := [], versions := [], crate_owners := [], team_members := [],
    dependencies := [], version_owner_actions := [], crate_keywords := [],
    crate_categories := [], known_categories := [], reserved_crate_names := [],
    jobs := [], next_crate_id := 1, next_version_id := 1 }

/-- A registered crate `bar`, referenced by the witness dependencies. -/
def barRow : CrateRow :=
  { id := 42, name := "bar", description := none, homepage := none,
    documentation := none, readme := none, repository := none, max_upload_size := none }

/-- A database holding only the crate `bar`. -/
def dbDeps : Db := { dbEmpty with crates := [barRow] }

/-- A declared dependency on `bar` with a wildcard requirement. -/
def depWild : EncodableCrateDependency :=
  { name := "bar", version_req := "*", registry := none, kind := some 2,
    optional := true, default_features := false, features := ["x"],
    target := some "t", explicit_name_in_toml := some "r" }

/-- The manifest package used by the concrete witnesses. -/
def pkgA : TarballPackage :=
  { description := some "a crate", license := some "MIT", license_file := none,
    homepage := none, documentation := none, repository := none,
    keywords := some ["fast"], categories := some ["tools"], rust_version := none,
    links := none, path_in_vcs := none }

/-- The publishing user of the concrete witnesses. -/
def userA : User := { id := 1, verified_email := some "a@example.com" }

/-- Rate-limit buckets with tokens available for both publish actions. -/
def limiterA : RateLimiter :=
  ⟨[((1, LimitedAction.publishNew), 10), ((1, LimitedAction.publishUpdate), 10)]⟩

/-- `limiterA` after one `publish-new` token was debited. -/
def limiterA1 : RateLimiter :=
  ⟨[((1, LimitedAction.publishNew), 9), ((1, LimitedAction.publishUpdate), 10)]⟩

/-- `limiterA` after one `publish-update` token was debited. -/
def limiterA1U : RateLimiter :=
  ⟨[((1, LimitedAction.publishNew), 10), ((1, LimitedAction.publishUpdate), 9)]⟩

/-- The request environment of the concrete witnesses: all external
collaborators succeed. -/
def envA : Env :=
  { domain_name := "crates.io", max_upload_size := 100, max_unpack_size := 100,
    new_version_rate_limit := some 5, now := 1000000, user := userA,
    api_token_id := none,
    process_tarball := fun _ _ _ => .ok pkgA,
    parse_license_expr_ok := fun _ => true,
    url_parse_ok := fun _ => true,
    sha256_hex := fun _ => "cafebabe",
    upload_crate_file_error := none }

/-- The initial state of the concrete witnesses: no crates, the `tools`
category known, full rate-limit buckets. -/
def stA : PubState :=
  { db := { dbEmpty with known_categories := ["tools"] }, storage := [], limiter := limiterA }

/-- The publish metadata of the concrete witnesses. -/
def metaA : PublishMetadata :=
  { name := "foo", vers := "1.0.0", deps := [], features := [],
    readme := none, readme_file := none }

/-- `envA` with a user who has not verified an email address. -/
def envNoEmail : Env := { envA with user := { id := 1, verified_email := none } }

/-- `pkgA` with no description and neither license field. -/
def pkgMissing : TarballPackage := { pkgA with description := none, license := none }

/-- `envA` whose tarball processor yields the metadata-missing manifest. -/
def envMissing : Env := { envA with process_tarball := fun _ _ _ => .ok pkgMissing }

/-- An existing crate `foo`, owned by user 2, not by the publisher. -/
def fooRow : CrateRow :=
  { id := 7, name := "foo", description := some "old", homepage := none,
    documentation := none, readme := none, repository := none, max_upload_size := none }

/-- A state where `foo` already exists and user 2 is its only owner. -/
def stOwned : PubState :=
  { db := { dbEmpty with
              crates := [fooRow],
              crate_owners := [(7, Owner.user 2)],
              known_categories := ["tools"] },
    storage := [], limiter := limiterA }

/-- `fooRow` after the fallback metadata update of the publish attempt. -/
def fooRowUpd : CrateRow := { fooRow with description := some "a crate" }

/-- `stOwned`'s database after the fallback update. -/
def dbOwned1 : Db := { stOwned.db with crates := [fooRowUpd] }

/-- What `preChecks` hands on in the C2 witness scenario. -/
def preB : PreOut :=
  { existing := some fooRow, email := "a@example.com", pkg := pkgA, license := some "MIT" }

/-- `stOwned` after the `publish-update` rate-limit debit. -/
def st1B : PubState := { stOwned with limiter := limiterA1U }

/-- A version of `foo` published 1000 seconds before `now`. -/
def v1Row : VersionRow :=
  { id := 3, crate_id := 7, num := "0.9.0", created_at := 999000,
    license := some "MIT", crate_size := 0, published_by := 1, checksum := "x" }

/-- `envA` with a daily cap of one version per crate. -/
def envCap : Env := { envA with new_version_rate_limit := some 1 }

/-- A state where user 1 owns `foo`, which already has one version
inside the current 24-hour window. -/
def stCap : PubState :=
  { db := { dbEmpty with
              crates := [fooRow],
              versions := [v1Row],
              crate_owners := [(7, Owner.user 1)],
              known_categories := ["tools"] },
    storage := [], limiter := limiterA }

/-- `stCap` after the `publish-update` rate-limit debit. -/
def st1Cap : PubState := { stCap with limiter := limiterA1U }

/-- `stCap`'s database after the fallback metadata update. -/
def dbCap1 : Db := { stCap.db with crates := [fooRowUpd] }

/-- `metaA` declaring the wildcard dependency on `bar`. -/
def metaWild : PublishMetadata := { metaA with deps := [depWild] }

/-- `stA` with the dependency target `bar` registered. -/
def stWild : PubState := { stA with db := { stA.db with crates := [barRow] } }

/-- What `preChecks` hands on in the C4 witness scenario. -/
def preWild : PreOut :=
  { existing := none, email := "a@example.com", pkg := pkgA, license := some "MIT" }

/-- `stWild` after the `publish-new` rate-limit debit. -/
def st1Wild : PubState := { stWild with limiter := limiterA1 }

/-- `envA` whose blob-store upload fails with `boom`. -/
def envUp : Env := { envA with upload_crate_file_error := some "boom" }

/-- What `preChecks` hands on in the C1 witness scenario. -/
def preUp : PreOut :=
  { existing := none, email := "a@example.com", pkg := pkgA, license := some "MIT" }

/-- `stA` after the `publish-new` rate-limit debit. -/
def st1Up : PubState := { stA with limiter := limiterA1 }

/-- The successful transaction-body result of the C1 witness scenario. -/
def txValUp : Db × TxOut :=
  match txBody envUp metaA [] preUp st1Up.db with
  | .ok x => x
  | .error _ => (dbEmpty, { krate := fooRow, version := v1Row, invalid_categories := [] })

/-- `pkgA` with six keywords. -/
def pkgSixKw : TarballPackage :=
  { pkgA with keywords := some ["k1", "k2", "k3", "k4", "k5", "k6"] }

/-- `envA` delivering the six-keyword manifest. -/
def envSixKw : Env := { envA with process_tarball := fun _ _ _ => .ok pkgSixKw }

/-- `pkgA` with a keyword that fails the keyword grammar. -/
def pkgBadKw : TarballPackage := { pkgA with keywords := some ["bad keyword"] }

/-- `envA` delivering the bad-keyword manifest. -/
def envBadKw : Env := { envA with process_tarball := fun _ _ _ => .ok pkgBadKw }

/-- `pkgA` with six categories. -/
def pkgSixCat : TarballPackage :=
  { pkgA with categories := some ["c1", "c2", "c3", "c4", "c5", "c6"] }

/-- `envA` delivering the six-category manifest. -/
def envSixCat : Env := { envA with process_tarball := fun _ _ _ => .ok pkgSixCat }

/-- `pkgA` with a category unknown to the taxonomy of `stA`. -/
def pkgUnk : TarballPackage := { pkgA with categories := some ["nonexistent"] }

/-- `envA` delivering the unknown-category manifest. -/
def envUnk : Env := { envA with process_tarball := fun _ _ _ => .ok pkgUnk }

/-- What `preChecks` hands on in the unknown-category scenario. -/
def preUnk : PreOut :=
  { existing := none, email := "a@example.com", pkg := pkgUnk, license := some "MIT" }

/-- The create-or-update result of the unknown-category scenario. -/
def coUnk : Db × CrateRow :=
  match createOrUpdateCrate st1Up.db (newCrateOf metaA pkgUnk) 1 with
  | .ok x => x
  | .error _ => (dbEmpty, fooRow)

/-- The version-insert result of the unknown-category scenario. -/
def saveUnk : Db × VersionRow :=
  match saveNewVersion coUnk.1 coUnk.2.id "1.0.0" (some "MIT") 0 1 "cafebabe" 1000000 with
  | .ok x => x
  | .error _ => (dbEmpty, v1Row)

/-- The dependency-insert result of the unknown-category scenario. -/
def addUnk : Db :=
  match add_dependencies (insert_version_owner_action saveUnk.1 saveUnk.2.id 1 none) []
      saveUnk.2.id with
  | .ok x => x
  | .error _ => dbEmpty

/-! ## Theorems -/

/-- C7: `split_body` reads a 4-byte little-endian length and the JSON
segment, then a 4-byte little-endian length and the tarball segment; with
fewer than 4 bytes before either prefix, or a declared length over the
bytes remaining after its prefix, it errors without producing either
segment; otherwise it returns exactly the two declared-length segments. -/
theorem split_body_spec (bytes : List Nat) :
    (bytes.length < 4 →
      split_body bytes = .error (.cargo "invalid metadata length"))
    ∧ (4 ≤ bytes.length → bytes.length - 4 < get_u32_le bytes →
      split_body bytes =
        .error (.cargo ("invalid metadata length for remaining payload: " ++
          toString (get_u32_le bytes))))
    ∧ (4 ≤ bytes.length → get_u32_le bytes ≤ bytes.length - 4 →
       bytes.length - 4 - get_u32_le bytes < 4 →
      split_body bytes = .error (.cargo "invalid tarball length"))
    ∧ (4 ≤ bytes.length → get_u32_le bytes ≤ bytes.length - 4 →
       4 ≤ bytes.length - 4 - get_u32_le bytes →
       bytes.length - 8 - get_u32_le bytes < get_u32_le ((bytes.drop 4).drop (get_u32_le bytes)) →
      split_body bytes =
        .error (.cargo ("invalid tarball length for remaining payload: " ++
          toString (get_u32_le ((bytes.drop 4).drop (get_u32_le bytes))))))
    ∧ (4 ≤ bytes.length → get_u32_le bytes ≤ bytes.length - 4 →
       4 ≤ bytes.length - 4 - get_u32_le bytes →
       get_u32_le ((bytes.drop 4).drop (get_u32_le bytes)) ≤ bytes.length - 8 - get_u32_le bytes →
      split_body bytes =
        .ok ((bytes.drop 4).take (get_u32_le bytes),
             (((bytes.drop 4).drop (get_u32_le bytes)).drop 4).take
               (get_u32_le ((bytes.drop 4).drop (get_u32_le bytes))))
      ∧ ((bytes.drop 4).take (get_u32_le bytes)).length = get_u32_le bytes
      ∧ ((((bytes.drop 4).drop (get_u32_le bytes)).drop 4).take
           (get_u32_le ((bytes.drop 4).drop (get_u32_le bytes)))).length =
         get_u32_le ((bytes.drop 4).drop (get_u32_le bytes))) := by
  refine ⟨?_, ?_, ?_, ?_, ?_⟩
  · intro h
    simp only [split_body, if_pos h]
  · intro h4 hj
    simp only [split_body, List.length_drop, gt_iff_lt]
    rw [if_neg (by omega), if_pos (by omega)]
  · intro h4 hj hr
    simp only [split_body, List.length_drop, gt_iff_lt]
    rw [if_neg (by omega), if_neg (by omega), if_pos (by omega)]
  · intro h4 hj hr ht
    simp only [split_body, List.length_drop, gt_iff_lt]
    rw [if_neg (by omega), if_neg (by omega), if_neg (by omega), if_pos (by omega)]
  · intro h4 hj hr ht
    refine ⟨?_, ?_, ?_⟩
    · simp only [split_body, List.length_drop, gt_iff_lt]
      rw [if_neg (by omega), if_neg (by omega), if_neg (by omega), if_neg (by omega)]
    · simp only [List.length_take, List.length_drop]
      omega
    · simp only [List.length_take, List.length_drop]
      omega

/-- Witness for C7 at a concrete body: json length 2, json segment
[10, 20], tarball length 3, tarball segment [7, 8, 9], one trailing byte. -/
theorem split_body_spec_witness :
    split_body [2, 0, 0, 0, 10, 20, 3, 0, 0, 0, 7, 8, 9, 99] = .ok ([10, 20], [7, 8, 9]) :=
  ((split_body_spec [2, 0, 0, 0, 10, 20, 3, 0, 0, 0, 7, 8, 9, 99]).2.2.2.2
    (by decide) (by decide) (by decide) (by decide)).1

/-- The uploads accumulated by the per-file loop: exactly one upload per
changed file that still exists, carrying its full contents. -/
theorem uploadFiles_uploads (repo : IndexRepo) (files : List String) (acc : UploadRunResult) :
    (uploadFiles repo files acc).uploads =
      acc.uploads ++ files.filterMap (fun n => (repo.index_file n).map (fun c => (n, c))) := by
  induction files generalizing acc with
  | nil => simp [uploadFiles]
  | cons name rest ih =>
    simp only [uploadFiles, List.filterMap_cons]
    cases h : repo.index_file name with
    | none => simp [ih]
    | some contents => simp [ih]

/-- The skip warnings accumulated by the per-file loop: exactly the
changed files that no longer exist in the working tree. -/
theorem uploadFiles_skipped (repo : IndexRepo) (files : List String) (acc : UploadRunResult) :
    (uploadFiles repo files acc).skipped =
      acc.skipped ++ files.filter (fun n => (repo.index_file n).isNone) := by
  induction files generalizing acc with
  | nil => simp [uploadFiles]
  | cons name rest ih =>
    simp only [uploadFiles, List.filter_cons]
    cases h : repo.index_file name with
    | none => simp [h, ih]
    | some contents => simp [h, ih]

/-- C10: an incremental index-sync run started from a checkpoint skips
(with a warning, never failing the run) every changed file that no longer
exists at the new head, uploads the full current contents of every
changed file that still exists (zero changed files means zero uploads),
and reports the repository head commit as the next incremental
checkpoint. -/
theorem uploadIndexRun_incremental (repo : IndexRepo) (checkpoint : String) :
    (∀ name, name ∈ repo.get_files_modified_since (some checkpoint) →
       repo.index_file name = none →
       name ∈ (uploadIndexRun repo (some checkpoint) true).skipped
       ∧ ∀ c, (name, c) ∉ (uploadIndexRun repo (some checkpoint) true).uploads)
    ∧ (∀ name c, name ∈ repo.get_files_modified_since (some checkpoint) →
       repo.index_file name = some c →
       (name, c) ∈ (uploadIndexRun repo (some checkpoint) true).uploads)
    ∧ (repo.get_files_modified_since (some checkpoint) = [] →
       (uploadIndexRun repo (some checkpoint) true).uploads = [])
    ∧ (uploadIndexRun repo (some checkpoint) true).reported_checkpoint = some repo.head_oid := by
  have hrun : uploadIndexRun repo (some checkpoint) true =
      { uploadFiles repo (repo.get_files_modified_since (some checkpoint))
          { uploads := [], skipped := [], reported_checkpoint := none } with
        reported_checkpoint := some repo.head_oid } := by
    simp [uploadIndexRun]
  refine ⟨?_, ?_, ?_, ?_⟩
  · intro name hmem hnone
    rw [hrun]
    constructor
    · show name ∈ (uploadFiles repo _ _).skipped
      rw [uploadFiles_skipped]
      simp only [List.nil_append, List.mem_filter]
      exact ⟨hmem, by simp [hnone]⟩
    · intro c hc
      rw [show ({ uploadFiles repo (repo.get_files_modified_since (some checkpoint))
            { uploads := [], skipped := [], reported_checkpoint := none } with
            reported_checkpoint := some repo.head_oid } : UploadRunResult).uploads =
          (uploadFiles repo (repo.get_files_modified_since (some checkpoint))
            { uploads := [], skipped := [], reported_checkpoint := none }).uploads from rfl,
        uploadFiles_uploads] at hc
      simp only [List.nil_append, List.mem_filterMap, Option.map_eq_some'] at hc
      obtain ⟨n, _, c2, hsome, heq⟩ := hc
      have hn : n = name := (Prod.mk.injEq _ _ _ _).mp heq |>.1
      rw [hn, hnone] at hsome
      exact Option.noConfusion hsome
  · intro name c hmem hsome
    rw [hrun]
    show (name, c) ∈ (uploadFiles repo _ _).uploads
    rw [uploadFiles_uploads]
    simp only [List.nil_append, List.mem_filterMap]
    exact ⟨name, hmem, by simp [hsome]⟩
  · intro hnil
    rw [hrun]
    show (uploadFiles repo _ _).uploads = []
    rw [uploadFiles_uploads, hnil]
    simp
  · rw [hrun]

/-- Witness for C10: on `repoW`, the vanished file is skipped, the
existing file is uploaded in full, and the head is reported as the next
checkpoint. -/
theorem uploadIndexRun_incremental_witness :
    "b" ∈ (uploadIndexRun repoW (some "c0") true).skipped
    ∧ ("a", "A") ∈ (uploadIndexRun repoW (some "c0") true).uploads
    ∧ (uploadIndexRun repoW (some "c0") true).reported_checkpoint = some "h2" :=
  ⟨((uploadIndexRun_incremental repoW "c0").1 "b" (by decide) (by decide)).1,
   (uploadIndexRun_incremental repoW "c0").2.1 "a" "A" (by decide) (by decide),
   (uploadIndexRun_incremental repoW "c0").2.2.2⟩

/-- If every declared dependency validates, the collect step succeeds. -/
theorem collectNewDependencies_ok_of_valid (db : Db) (vid : Nat)
    (deps : List EncodableCrateDependency)
    (h : ∀ dep ∈ deps, ∃ row, validateDep db vid dep = .ok row) :
    ∃ rows, collectNewDependencies db vid deps = .ok rows := by
  induction deps with
  | nil => exact ⟨[], rfl⟩
  | cons dep rest ih =>
    obtain ⟨row, hrow⟩ := h dep (by simp)
    obtain ⟨rows, hrows⟩ := ih (fun d hd => h d (by simp [hd]))
    exact ⟨row :: rows, by simp [collectNewDependencies, hrow, hrows]⟩

/-- If any declared dependency fails validation, the collect step fails
(first error wins), so nothing reaches the batch insert. -/
theorem collectNewDependencies_error_of_invalid (db : Db) (vid : Nat)
    (deps : List EncodableCrateDependency) (dep : EncodableCrateDependency)
    (hmem : dep ∈ deps) (hbad : ∀ row, validateDep db vid dep ≠ .ok row) :
    ∃ e, collectNewDependencies db vid deps = .error e := by
  induction deps with
  | nil => cases hmem
  | cons d rest ih =>
    rcases List.mem_cons.mp hmem with heq | hmem2
    · subst heq
      cases hv : validateDep db vid dep with
      | error e => exact ⟨e, by simp [collectNewDependencies, hv]⟩
      | ok row => exact absurd hv (hbad row)
    · cases hv : validateDep db vid d with
      | error e => exact ⟨e, by simp [collectNewDependencies, hv]⟩
      | ok row =>
        obtain ⟨e, he⟩ := ih hmem2
        exact ⟨e, by simp [collectNewDependencies, hv, he]⟩

/-- A successful collect step means every declared dependency validated. -/
theorem collectNewDependencies_ok_elim (db : Db) (vid : Nat)
    (deps : List EncodableCrateDependency) (rows : List DependencyRow)
    (h : collectNewDependencies db vid deps = .ok rows) :
    rows.length = deps.length ∧ ∀ dep ∈ deps, ∃ row, validateDep db vid dep = .ok row := by
  induction deps generalizing rows with
  | nil =>
    simp only [collectNewDependencies] at h
    cases h
    exact ⟨rfl, by intro dep hd; cases hd⟩
  | cons d rest ih =>
    simp only [collectNewDependencies] at h
    cases hv : validateDep db vid d with
    | error e => rw [hv] at h; cases h
    | ok row =>
      rw [hv] at h
      cases hc : collectNewDependencies db vid rest with
      | error e => rw [hc] at h; cases h
      | ok rows2 =>
        rw [hc] at h
        cases h
        obtain ⟨hlen, hall⟩ := ih rows2 hc
        refine ⟨by simp [hlen], ?_⟩
        intro dep hd
        rcases List.mem_cons.mp hd with heq | hmem2
        · exact ⟨row, heq ▸ hv⟩
        · exact hall dep hmem2

/-- C3: `add_dependencies` is all-or-nothing. A success inserts exactly
one validated row per declared edge as a single batch; if any edge fails
validation the function returns an error and no success state (and hence
no inserted row) exists; and the per-edge validation rejects a non-empty
alternate registry, an unresolvable exact (non-canonicalized) name (with
the fixed "no known crate named" message), and a wildcard requirement. -/
theorem add_dependencies_all_or_nothing (db : Db) (vid : Nat)
    (deps : List EncodableCrateDependency) :
    (∀ db2, add_dependencies db deps vid = .ok db2 →
      ∃ rows, collectNewDependencies db vid deps = .ok rows
        ∧ db2 = { db with dependencies := db.dependencies ++ rows }
        ∧ rows.length = deps.length
        ∧ ∀ dep ∈ deps, ∃ row, validateDep db vid dep = .ok row)
    ∧ ((∃ dep ∈ deps, ∀ row, validateDep db vid dep ≠ .ok row) →
      ∃ e, add_dependencies db deps vid = .error e)
    ∧ (∀ dep reg, dep.registry = some reg → reg ≠ "" →
      validateDep db vid dep =
        .error (.cargo ("Dependency `" ++ dep.name ++
          "` is hosted on another registry. Cross-registry dependencies are not permitted on crates.io.")))
    ∧ (∀ dep, dep.registry.getD "" = "" → Crate.by_exact_name db dep.name = none →
      validateDep db vid dep = .error (.cargo ("no known crate named `" ++ dep.name ++ "`")))
    ∧ (∀ dep k, dep.registry.getD "" = "" → Crate.by_exact_name db dep.name = some k →
      versionReqIsStar dep.version_req = true →
      validateDep db vid dep =
        .error (.cargo ("wildcard (`*`) dependency constraints are not allowed on crates.io. Crate with this problem: `" ++
          dep.name ++
          "` See https://doc.rust-lang.org/cargo/faq.html#can-libraries-use--as-a-version-for-their-dependencies for more information"))) := by
  refine ⟨?_, ?_, ?_, ?_, ?_⟩
  · intro db2 h
    simp only [add_dependencies] at h
    cases hc : collectNewDependencies db vid deps with
    | error e => rw [hc] at h; cases h
    | ok rows =>
      rw [hc] at h
      cases h
      obtain ⟨hlen, hall⟩ := collectNewDependencies_ok_elim db vid deps rows hc
      exact ⟨rows, rfl, rfl, hlen, hall⟩
  · intro h
    obtain ⟨dep, hmem, hbad⟩ := h
    obtain ⟨e, he⟩ := collectNewDependencies_error_of_invalid db vid deps dep hmem hbad
    exact ⟨e, by simp [add_dependencies, he]⟩
  · intro dep reg hreg hne
    simp only [validateDep, hreg, Option.getD_some]
    rw [if_pos hne]
  · intro dep hreg hnone
    simp only [validateDep, hnone]
    rw [if_neg (by simp [hreg])]
  · intro dep k hreg hsome hstar
    simp only [validateDep, hsome]
    rw [if_neg (by simp [hreg]), if_pos hstar]

/-- Witness for C3: on a concrete database, the wildcard edge is rejected
by validation and `add_dependencies` returns an error. -/
theorem add_dependencies_all_or_nothing_witness :
    validateDep dbDeps 1 depWild =
      .error (.cargo ("wildcard (`*`) dependency constraints are not allowed on crates.io. Crate with this problem: `bar` See https://doc.rust-lang.org/cargo/faq.html#can-libraries-use--as-a-version-for-their-dependencies for more information"))
    ∧ ∃ e, add_dependencies dbDeps [depWild] 1 = .error e := by
  have hval := (add_dependencies_all_or_nothing dbDeps 1 [depWild]).2.2.2.2 depWild barRow
    (by decide) (by decide) (by decide)
  refine ⟨hval, (add_dependencies_all_or_nothing dbDeps 1 [depWild]).2.1 ⟨depWild, by simp, ?_⟩⟩
  intro row hrow
  rw [hval] at hrow
  exact Except.noConfusion hrow

/-- C5: a publish request by an authenticated user with no verified email
address fails with the set-and-verify-your-email error, and the state —
rate-limit buckets included — is returned untouched: the failure precedes
the rate-limit debit and every mutation. The theorem holds for every
environment, in particular for every tarball-processor behaviour, so the
failure does not depend on (and precedes) archive validation. -/
theorem publish_requires_verified_email (env : Env) (meta : PublishMetadata)
    (tarball_bytes : List Nat) (st : PubState)
    (h : env.user.verified_email = none) :
    publish env meta tarball_bytes st =
      (.error (.cargo (verified_email_error env.domain_name)), st) := by
  simp only [publish, preChecks, h]

/-- Witness for C5: the concrete no-verified-email publish fails with the
email error and leaves the state untouched. -/
theorem publish_requires_verified_email_witness :
    publish envNoEmail metaA [] stA =
      (.error (.cargo (verified_email_error "crates.io")), stA) :=
  publish_requires_verified_email envNoEmail metaA [] stA rfl

/-- The pre-transaction checks never touch the database or the blob
store: only the rate-limit debit mutates state. -/
theorem preChecks_frame (env : Env) (meta : PublishMetadata) (tarball_bytes : List Nat)
    (st : PubState) :
    ((preChecks env meta tarball_bytes st).2).db = st.db
    ∧ ((preChecks env meta tarball_bytes st).2).storage = st.storage := by
  refine ⟨?_, ?_⟩ <;>
  · unfold preChecks
    split
    · rfl
    · dsimp only
      split
      · rfl
      · split
        · rfl
        · split
          · rfl
          · split <;> rfl

/-- C9: with a missing/empty description and both license fields
missing/empty, publish fails with one combined message listing both
missing field names, comma-separated, description first — not just the
first missing field — and the state is mutated only by the earlier
rate-limit debit. -/
theorem publish_missing_metadata_combined (env : Env) (meta : PublishMetadata)
    (tarball_bytes : List Nat) (st : PubState) (pkg : TarballPackage)
    (limiter1 : RateLimiter) (email : String)
    (hemail : env.user.verified_email = some email)
    (hrl : checkRateLimit env.user.id (rateLimitActionFor (Crate.by_name st.db meta.name))
      st.limiter = .ok limiter1)
    (hsize : ¬ tarball_bytes.length > (publishMaximums env st.db meta.name).max_upload_size)
    (htar : env.process_tarball (meta.name ++ "-" ++ meta.vers) tarball_bytes
      (publishMaximums env st.db meta.name).max_unpack_size = .ok pkg)
    (hdesc : emptyField pkg.description = true)
    (hlic : emptyField pkg.license = true)
    (hlicf : emptyField pkg.license_file = true) :
    publish env meta tarball_bytes st =
      (.error (.cargo (missing_metadata_error_message ["description", "license"])),
       { st with limiter := limiter1 })
    ∧ missing_metadata_error_message ["description", "license"] =
      "missing or empty metadata fields: description, license. Please see https://doc.rust-lang.org/cargo/reference/manifest.html for how to upload metadata" := by
  refine ⟨?_, rfl⟩
  have hmiss : missingFields pkg.description pkg.license pkg.license_file
      = ["description", "license"] := by
    simp [missingFields, hdesc, hlic, hlicf]
  have hmeta : metadataChecks env pkg =
      .error (.cargo (missing_metadata_error_message ["description", "license"])) := by
    simp [metadataChecks, hmiss, throw, throwThe, MonadExceptOf.throw, bind, Except.bind]
  simp [publish, preChecks, hemail, hrl, htar, hmeta, hsize]

/-- Witness for C9: the concrete publish with missing description and
license fails with the combined two-field message. -/
theorem publish_missing_metadata_combined_witness :
    publish envMissing metaA [] stA =
      (.error (.cargo "missing or empty metadata fields: description, license. Please see https://doc.rust-lang.org/cargo/reference/manifest.html for how to upload metadata"),
       { stA with limiter := limiterA1 }) :=
  (publish_missing_metadata_combined envMissing metaA [] stA pkgMissing limiterA1
    "a@example.com" rfl rfl (by decide) rfl rfl rfl rfl).1

/-- C2: publishing an already-existing package with a capability below
Publish — recomputed inside the transaction against the crate row
resolved by the insert-or-fallback-to-update step — fails with the fixed
missing-rights message, and the transaction rolls back, so no version is
created (the database is exactly the pre-publish one). -/
theorem publish_existing_not_owner (env : Env) (meta : PublishMetadata)
    (tarball_bytes : List Nat) (st : PubState) (pre : PreOut) (st1 : PubState)
    (ex : CrateRow) (db1 : Db) (krate : CrateRow)
    (hpre : preChecks env meta tarball_bytes st = (.ok pre, st1))
    (hexist : Crate.by_name st.db meta.name = some ex)
    (hres : is_reserved_name st1.db meta.name = false)
    (hco : createOrUpdateCrate st1.db (newCrateOf meta pre.pkg) env.user.id = .ok (db1, krate))
    (hrights : User.rights db1 env.user.id (crateOwners db1 krate.id) < Rights.publish) :
    publish env meta tarball_bytes st = (.error (.cargo MISSING_RIGHTS_ERROR_MESSAGE), st1)
    ∧ st1.db = st.db := by
  have hframe := preChecks_frame env meta tarball_bytes st
  rw [hpre] at hframe
  refine ⟨?_, hframe.1⟩
  have htx : txBody env meta tarball_bytes pre st1.db =
      .error (.cargo MISSING_RIGHTS_ERROR_MESSAGE) := by
    simp [txBody, hres, hco, bind, Except.bind, throw, throwThe, MonadExceptOf.throw,
      pure, Except.pure, hrights]
  simp [publish, hpre, htx]

/-- Witness for C2: user 1 publishing the existing crate `foo` owned by
user 2 fails with the fixed missing-rights message and leaves the
database untouched. -/
theorem publish_existing_not_owner_witness :
    publish envA metaA [] stOwned = (.error (.cargo MISSING_RIGHTS_ERROR_MESSAGE), st1B)
    ∧ st1B.db = stOwned.db :=
  publish_existing_not_owner envA metaA [] stOwned preB st1B fooRow dbOwned1 fooRowUpd
    rfl rfl rfl rfl (by decide)

/-- C6: the daily cap is checked immediately before persisting the new
version, scoped to the resolved crate (`count_versions_published_today`
counts that crate's versions with `created_at` inside the rolling
24-hour window, whoever published them); once the count has reached the
configured limit the publish fails with the fixed too-many-versions
message and the transaction rolls back, so no version row is inserted. -/
theorem publish_daily_version_cap (env : Env) (meta : PublishMetadata)
    (tarball_bytes : List Nat) (st : PubState) (pre : PreOut) (st1 : PubState)
    (db1 : Db) (krate : CrateRow) (limit : Nat)
    (hpre : preChecks env meta tarball_bytes st = (.ok pre, st1))
    (hres : is_reserved_name st1.db meta.name = false)
    (hco : createOrUpdateCrate st1.db (newCrateOf meta pre.pkg) env.user.id = .ok (db1, krate))
    (hrights : ¬ User.rights db1 env.user.id (crateOwners db1 krate.id) < Rights.publish)
    (hname : krate.name = meta.name)
    (hlimit : env.new_version_rate_limit = some limit)
    (hcount : count_versions_published_today db1 krate.id env.now ≥ limit) :
    publish env meta tarball_bytes st =
      (.error (.cargo "You have published too many versions of this crate in the last 24 hours"),
       st1)
    ∧ st1.db = st.db := by
  have hframe := preChecks_frame env meta tarball_bytes st
  rw [hpre] at hframe
  refine ⟨?_, hframe.1⟩
  have hdaily : dailyVersionCheck env db1 krate.id =
      .error (.cargo "You have published too many versions of this crate in the last 24 hours") := by
    simp [dailyVersionCheck, hlimit, hcount]
  have htx : txBody env meta tarball_bytes pre st1.db =
      .error (.cargo "You have published too many versions of this crate in the last 24 hours") := by
    simp [txBody, hres, hco, hrights, hname, hdaily, bind, Except.bind, throw, throwThe,
      MonadExceptOf.throw, pure, Except.pure]
  simp [publish, hpre, htx]

/-- Witness for C6: with the cap set to 1 and one version of `foo`
already published today, the concrete publish fails with the
too-many-versions message and inserts nothing. -/
theorem publish_daily_version_cap_witness :
    publish envCap metaA [] stCap =
      (.error (.cargo "You have published too many versions of this crate in the last 24 hours"),
       st1Cap)
    ∧ st1Cap.db = stCap.db :=
  publish_daily_version_cap envCap metaA [] stCap preB st1Cap dbCap1 fooRowUpd 1
    rfl rfl rfl (by decide) rfl rfl (by decide)

/-- A dependency with a wildcard requirement never validates, whatever
its other fields: whichever branch its validation takes, it errors. -/
theorem validateDep_star_not_ok (db : Db) (vid : Nat) (dep : EncodableCrateDependency)
    (hstar : versionReqIsStar dep.version_req = true) :
    ∀ row, validateDep db vid dep ≠ .ok row := by
  intro row h
  simp only [validateDep, hstar] at h
  split at h
  · exact Except.noConfusion h
  · split at h
    · exact Except.noConfusion h
    · simp at h

/-- `add_dependencies` never succeeds when some declared edge carries a
wildcard requirement. -/
theorem add_dependencies_not_ok_of_star (db : Db) (vid : Nat)
    (deps : List EncodableCrateDependency) (dep : EncodableCrateDependency)
    (hmem : dep ∈ deps) (hstar : versionReqIsStar dep.version_req = true) :
    ∀ db2, add_dependencies db deps vid ≠ .ok db2 := by
  intro db2 h
  simp only [add_dependencies] at h
  cases hc : collectNewDependencies db vid deps with
  | error e => rw [hc] at h; cases h
  | ok rows =>
    obtain ⟨-, hall⟩ := collectNewDependencies_ok_elim db vid deps rows hc
    obtain ⟨row, hrow⟩ := hall dep hmem
    exact validateDep_star_not_ok db vid dep hstar row hrow

/-- A successful transaction body in particular inserted its dependency
edges: `add_dependencies` succeeded on the declared list. -/
theorem txBody_ok_add_dependencies (env : Env) (meta : PublishMetadata)
    (tarball_bytes : List Nat) (pre : PreOut) (db0 : Db) (out : Db × TxOut)
    (h : txBody env meta tarball_bytes pre db0 = .ok out) :
    ∃ db3 vid db4, add_dependencies db3 meta.deps vid = .ok db4 := by
  simp only [txBody, bind, Except.bind, pure, Except.pure, throw, throwThe,
    MonadExceptOf.throw] at h
  repeat' split at h
  all_goals first
    | exact Except.noConfusion h
    | exact ⟨_, _, _, by assumption⟩

/-- C4: a publish whose declared dependencies include a wildcard (`*`)
version requirement fails, whatever the other fields of that dependency
(kind, optionality, features, target, rename — all universally
quantified here), and the transaction rolls back, leaving the database
untouched. -/
theorem publish_wildcard_dep_fails (env : Env) (meta : PublishMetadata)
    (tarball_bytes : List Nat) (st : PubState) (pre : PreOut) (st1 : PubState)
    (dep : EncodableCrateDependency)
    (hpre : preChecks env meta tarball_bytes st = (.ok pre, st1))
    (hmem : dep ∈ meta.deps)
    (hstar : versionReqIsStar dep.version_req = true) :
    (∃ e, publish env meta tarball_bytes st = (.error e, st1)) ∧ st1.db = st.db := by
  have hframe := preChecks_frame env meta tarball_bytes st
  rw [hpre] at hframe
  refine ⟨?_, hframe.1⟩
  cases htx : txBody env meta tarball_bytes pre st1.db with
  | error e => exact ⟨e, by simp [publish, hpre, htx]⟩
  | ok out =>
    obtain ⟨db3, vid, db4, hadd⟩ :=
      txBody_ok_add_dependencies env meta tarball_bytes pre st1.db out htx
    exact absurd hadd (add_dependencies_not_ok_of_star db3 vid meta.deps dep hmem hstar db4)

/-- Witness for C4: the concrete publish of `foo` with a wildcard
dependency on the registered crate `bar` fails and persists nothing. -/
theorem publish_wildcard_dep_fails_witness :
    (∃ e, publish envA metaWild [] stWild = (.error e, st1Wild)) ∧ st1Wild.db = stWild.db :=
  publish_wildcard_dep_fails envA metaWild [] stWild preWild st1Wild depWild
    rfl (by decide) rfl

/-- C1 (amended): the blob upload runs inside the publish database
transaction — after the version insert and readme enqueue, before the
index-sync enqueue — so when the upload fails the transaction rolls
back: publish returns the upload error and the pre-transaction database
(no version row, no index-sync job) with the blob store untouched; only
the earlier rate-limit debit persists. -/
theorem publish_upload_failure_rolls_back (env : Env) (meta : PublishMetadata)
    (tarball_bytes : List Nat) (st : PubState) (pre : PreOut) (st1 : PubState)
    (txres : Db × TxOut) (errmsg : String)
    (hpre : preChecks env meta tarball_bytes st = (.ok pre, st1))
    (htx : txBody env meta tarball_bytes pre st1.db = .ok txres)
    (hup : env.upload_crate_file_error = some errmsg) :
    publish env meta tarball_bytes st =
      (.error (.internal ("failed to upload crate: " ++ errmsg)), st1)
    ∧ st1.db = st.db ∧ st1.storage = st.storage := by
  have hframe := preChecks_frame env meta tarball_bytes st
  rw [hpre] at hframe
  refine ⟨?_, hframe.1, hframe.2⟩
  simp [publish, hpre, htx, hup]

/-- C1 counterexample: a concrete publish where every validation passes
and only the blob upload fails. The claim says the committed version
record and enqueued index-sync job survive such a failure; here the
publish returns the upload error while the final database holds no
version row and no job at all — they were rolled back with the
transaction (the upload runs before the commit, not after it). -/
theorem publish_upload_failure_counterexample :
    (publish envUp metaA [] stA).1 = .error (.internal "failed to upload crate: boom")
    ∧ ((publish envUp metaA [] stA).2).db.versions = []
    ∧ ((publish envUp metaA [] stA).2).db.jobs = []
    ∧ ((publish envUp metaA [] stA).2).storage = [] :=
  ⟨rfl, rfl, rfl, rfl⟩

/-- Witness for the amended C1: the concrete failing-upload publish
returns the upload error and rolls the database back. -/
theorem publish_upload_failure_rolls_back_witness :
    publish envUp metaA [] stA =
      (.error (.internal "failed to upload crate: boom"), st1Up)
    ∧ st1Up.db = stA.db ∧ st1Up.storage = stA.storage :=
  publish_upload_failure_rolls_back envUp metaA [] stA preUp st1Up txValUp "boom"
    rfl rfl rfl

/-- The create-or-update step never changes the registry's category
taxonomy. -/
theorem createOrUpdateCrate_known_categories (db : Db) (p : NewCrate) (uid : Nat)
    (db1 : Db) (k : CrateRow)
    (h : createOrUpdateCrate db p uid = .ok (db1, k)) :
    db1.known_categories = db.known_categories := by
  cases hb : Crate.by_name db p.name with
  | none =>
    simp only [createOrUpdateCrate, NewCrate.create, hb] at h
    cases h; rfl
  | some old =>
    simp only [createOrUpdateCrate, NewCrate.create, NewCrate.update, hb] at h
    cases h; rfl

/-- Inserting the version row never changes the category taxonomy. -/
theorem saveNewVersion_known_categories (db : Db) (crate_id : Nat) (num : String)
    (license : Option String) (crate_size : Nat) (user_id : Nat) (checksum : String)
    (now : Int) (db2 : Db) (v : VersionRow)
    (h : saveNewVersion db crate_id num license crate_size user_id checksum now = .ok (db2, v)) :
    db2.known_categories = db.known_categories := by
  simp only [saveNewVersion] at h
  split at h
  · exact Except.noConfusion h
  · cases h; rfl

/-- Inserting the dependency edges never changes the category taxonomy. -/
theorem add_dependencies_known_categories (db : Db) (deps : List EncodableCrateDependency)
    (vid : Nat) (db2 : Db) (h : add_dependencies db deps vid = .ok db2) :
    db2.known_categories = db.known_categories := by
  simp only [add_dependencies] at h
  split at h
  · exact Except.noConfusion h
  · cases h; rfl

/-- A keyword list containing a keyword that is over-long or fails the
keyword grammar never passes the per-keyword loop. -/
theorem checkKeywords_error_of_bad (ks : List String) (k : String)
    (hmem : k ∈ ks) (hbad : k.utf8ByteSize > 20 ∨ Keyword.valid_name k = false) :
    ∃ e, checkKeywords ks = .error e := by
  induction ks with
  | nil => cases hmem
  | cons a rest ih =>
    by_cases h20 : a.utf8ByteSize > 20
    · exact ⟨.cargo ("\"" ++ a ++ "\" is an invalid keyword (keywords must have less than 20 characters)"),
        by simp [checkKeywords, h20]⟩
    · by_cases hval : Keyword.valid_name a = true
      · rcases List.mem_cons.mp hmem with heq | hmem2
        · subst heq
          rcases hbad with hb | hb
          · exact absurd hb h20
          · rw [hval] at hb; cases hb
        · obtain ⟨e, he⟩ := ih hmem2
          exact ⟨e, by simp [checkKeywords, h20, hval, he]⟩
      · exact ⟨.cargo ("\"" ++ a ++ "\" is an invalid keyword"),
          by simp [checkKeywords, h20, hval]⟩

/-- C8: more than 5 keywords is rejected with the fixed message; a
keyword over 20 bytes long (hence any keyword longer than 20 characters)
or failing the keyword grammar makes the publish fail; more than 5
categories is rejected with the fixed message; and categories unknown to
the registry taxonomy do not cause rejection — the publish succeeds and
returns them as `invalid_categories` warnings. -/
theorem publish_keyword_category_rules (env : Env) (meta : PublishMetadata)
    (tarball_bytes : List Nat) (st : PubState) (pkg : TarballPackage)
    (limiter1 : RateLimiter) (email : String) (license : Option String)
    (hemail : env.user.verified_email = some email)
    (hrl : checkRateLimit env.user.id (rateLimitActionFor (Crate.by_name st.db meta.name))
      st.limiter = .ok limiter1)
    (hsize : ¬ tarball_bytes.length > (publishMaximums env st.db meta.name).max_upload_size)
    (htar : env.process_tarball (meta.name ++ "-" ++ meta.vers) tarball_bytes
      (publishMaximums env st.db meta.name).max_unpack_size = .ok pkg)
    (hmiss : missingFields pkg.description pkg.license pkg.license_file = [])
    (hlicres : resolveLicense env pkg.license pkg.license_file = .ok license)
    (hurlh : validate_url env pkg.homepage "homepage" = .ok ())
    (hurld : validate_url env pkg.documentation "documentation" = .ok ())
    (hurlr : validate_url env pkg.repository "repository" = .ok ()) :
    ((pkg.keywords.getD []).length > 5 →
      publish env meta tarball_bytes st =
        (.error (.cargo "expected at most 5 keywords per crate"), { st with limiter := limiter1 }))
    ∧ (∀ k, k ∈ pkg.keywords.getD [] →
        (k.utf8ByteSize > 20 ∨ Keyword.valid_name k = false) →
        ∃ e, publish env meta tarball_bytes st = (.error e, { st with limiter := limiter1 }))
    ∧ (¬ (pkg.keywords.getD []).length > 5 →
        checkKeywords (pkg.keywords.getD []) = .ok () →
        (pkg.categories.getD []).length > 5 →
        publish env meta tarball_bytes st =
          (.error (.cargo "expected at most 5 categories per crate"), { st with limiter := limiter1 }))
    ∧ (∀ pre st1 db1 krate db2 version db4 c,
        preChecks env meta tarball_bytes st = (.ok pre, st1) →
        is_reserved_name st1.db meta.name = false →
        createOrUpdateCrate st1.db (newCrateOf meta pre.pkg) env.user.id = .ok (db1, krate) →
        ¬ User.rights db1 env.user.id (crateOwners db1 krate.id) < Rights.publish →
        krate.name = meta.name →
        dailyVersionCheck env db1 krate.id = .ok () →
        saveNewVersion db1 krate.id meta.vers pre.license tarball_bytes.length env.user.id
          (env.sha256_hex tarball_bytes) env.now = .ok (db2, version) →
        add_dependencies (insert_version_owner_action db2 version.id env.user.id env.api_token_id)
          meta.deps version.id = .ok db4 →
        env.upload_crate_file_error = none →
        c ∈ pre.pkg.categories.getD [] →
        c ∉ st.db.known_categories →
        ∃ g, (publish env meta tarball_bytes st).1 = .ok g
          ∧ c ∈ g.warnings.invalid_categories) := by
  refine ⟨?_, ?_, ?_, ?_⟩
  · intro hkw5
    have hmeta : metadataChecks env pkg = .error (.cargo "expected at most 5 keywords per crate") := by
      simp [metadataChecks, hmiss, hlicres, hurlh, hurld, hurlr, hkw5,
        bind, Except.bind, throw, throwThe, MonadExceptOf.throw, pure, Except.pure]
    simp [publish, preChecks, hemail, hrl, htar, hmeta, hsize]
  · intro k hk hbad
    obtain ⟨e, he⟩ := checkKeywords_error_of_bad _ k hk hbad
    by_cases hkw5 : (pkg.keywords.getD []).length > 5
    · refine ⟨.cargo "expected at most 5 keywords per crate", ?_⟩
      have hmeta : metadataChecks env pkg =
          .error (.cargo "expected at most 5 keywords per crate") := by
        simp [metadataChecks, hmiss, hlicres, hurlh, hurld, hurlr, hkw5,
          bind, Except.bind, throw, throwThe, MonadExceptOf.throw, pure, Except.pure]
      simp [publish, preChecks, hemail, hrl, htar, hmeta, hsize]
    · refine ⟨e, ?_⟩
      have hmeta : metadataChecks env pkg = .error e := by
        simp [metadataChecks, hmiss, hlicres, hurlh, hurld, hurlr, hkw5, he,
          bind, Except.bind, throw, throwThe, MonadExceptOf.throw, pure, Except.pure]
      simp [publish, preChecks, hemail, hrl, htar, hmeta, hsize]
  · intro hkw5n hck hcat5
    have hmeta : metadataChecks env pkg =
        .error (.cargo "expected at most 5 categories per crate") := by
      simp [metadataChecks, hmiss, hlicres, hurlh, hurld, hurlr, hkw5n, hck, hcat5,
        bind, Except.bind, throw, throwThe, MonadExceptOf.throw, pure, Except.pure]
    simp [publish, preChecks, hemail, hrl, htar, hmeta, hsize]
  · intro pre st1 db1 krate db2 version db4 c hpre hres hco hrights hnm hdaily hsave hadd hup hc hunk
    have hframe := preChecks_frame env meta tarball_bytes st
    rw [hpre] at hframe
    have hk1 := createOrUpdateCrate_known_categories st1.db (newCrateOf meta pre.pkg)
      env.user.id db1 krate hco
    have hk2 := saveNewVersion_known_categories db1 krate.id meta.vers pre.license
      tarball_bytes.length env.user.id (env.sha256_hex tarball_bytes) env.now db2 version hsave
    have hk3 := add_dependencies_known_categories
      (insert_version_owner_action db2 version.id env.user.id env.api_token_id)
      meta.deps version.id db4 hadd
    have hknown : (Keyword.update_crate db4 krate.id (pre.pkg.keywords.getD [])).known_categories
        = st.db.known_categories := by
      simp only [Keyword.update_crate, insert_version_owner_action] at hk3 ⊢
      rw [hk3, hk2, hk1, hframe.1]
    have hpub : (publish env meta tarball_bytes st).1 =
        .ok { krate_name := krate.name,
              warnings :=
                { invalid_categories :=
                    (Category.update_crate
                      (Keyword.update_crate db4 krate.id (pre.pkg.keywords.getD []))
                      krate.id (pre.pkg.categories.getD [])).2,
                  invalid_badges := [],
                  other := [] } } := by
      simp [publish, hpre, txBody, hres, hco, hrights, hnm, hdaily, hsave, hadd, hup,
        bind, Except.bind, pure, Except.pure]
    refine ⟨_, hpub, ?_⟩
    simp only [Category.update_crate, List.mem_filter, hknown]
    refine ⟨hc, ?_⟩
    simp [hunk]

/-- Witness for C8, one concrete scenario per rule: six keywords
rejected; a grammar-breaking keyword rejected; six categories rejected;
an unknown category warned about in a successful publish. -/
theorem publish_keyword_category_rules_witness :
    (publish envSixKw metaA [] stA =
      (.error (.cargo "expected at most 5 keywords per crate"), { stA with limiter := limiterA1 }))
    ∧ (∃ e, publish envBadKw metaA [] stA = (.error e, { stA with limiter := limiterA1 }))
    ∧ (publish envSixCat metaA [] stA =
      (.error (.cargo "expected at most 5 categories per crate"), { stA with limiter := limiterA1 }))
    ∧ (∃ g, (publish envUnk metaA [] stA).1 = .ok g
        ∧ "nonexistent" ∈ g.warnings.invalid_categories) :=
  ⟨(publish_keyword_category_rules envSixKw metaA [] stA pkgSixKw limiterA1
      "a@example.com" (some "MIT") rfl rfl (by decide) rfl rfl rfl rfl rfl rfl).1
      (by decide),
   (publish_keyword_category_rules envBadKw metaA [] stA pkgBadKw limiterA1
      "a@example.com" (some "MIT") rfl rfl (by decide) rfl rfl rfl rfl rfl rfl).2.1
      "bad keyword" (by decide) (Or.inr (by decide)),
   (publish_keyword_category_rules envSixCat metaA [] stA pkgSixCat limiterA1
      "a@example.com" (some "MIT") rfl rfl (by decide) rfl rfl rfl rfl rfl rfl).2.2.1
      (by decide) rfl (by decide),
   (publish_keyword_category_rules envUnk metaA [] stA pkgUnk limiterA1
      "a@example.com" (some "MIT") rfl rfl (by decide) rfl rfl rfl rfl rfl rfl).2.2.2
      preUnk st1Up coUnk.1 coUnk.2 saveUnk.1 saveUnk.2 addUnk "nonexistent"
      rfl rfl rfl (by decide) rfl rfl rfl rfl rfl (by decide) (by decide)⟩
